import Mathlib

/-!
Verification of the paint-visualizer image-processing orchestrator.

Shallow embedding of the TypeScript sources:
* `database.ts` — `PaintDatabase.getPaintsByProductCodes` and the sample catalog;
* `image-processor.ts` (AI-integrated variant) — `ImageProcessor.processImage`,
  `executeImageProcessing`, `generatePaintedImage`, `processWithAI`,
  `mockImageProcessing`, `generateThumbnail`, `getResult`, `getStatus`,
  `clearCache`, `getStatistics`;
* `ai-provider.ts` — the provider factory, `isReady`, the Replicate submit
  body, and `waitForCompletion`.

JavaScript "falsy-or" defaulting (`x || d`) is modelled explicitly: for
numbers `0` is falsy, for optional strings `undefined` and `""` are falsy.
Nondeterministic inputs of the real code (request/image ids, clock values,
network outcomes of the AI backend) are passed in explicitly through an
environment record.  Strings are Lean `String`s; `substring`/`slice`
clamping follows the JavaScript semantics.
-/

namespace PaintViz

/-- JS `s1 || s2` for an optional string: `undefined` and `""` are falsy. -/
def jsOrStr (o : Option String) (d : String) : String :=
  match o with
  | none => d
  | some s => if s = "" then d else s

/-- JS truthiness of an optional string. -/
def jsStrTruthy (o : Option String) : Bool :=
  match o with
  | none => false
  | some s => s ≠ ""

/-- JS `n || d` for an optional number used as a count: `undefined` and `0` are falsy. -/
def jsOrInt (o : Option Int) (d : Int) : Int :=
  match o with
  | none => d
  | some v => if v = 0 then d else v

/-- JS `n || d` for an optional natural-valued config field: `undefined` and `0` are falsy. -/
def jsOrNat (o : Option Nat) (d : Nat) : Nat :=
  match o with
  | none => d
  | some v => if v = 0 then d else v

/-- JS `x || d` for an optional rational-valued config field: `undefined` and `0` are falsy. -/
def jsOrRat (o : Option ℚ) (d : ℚ) : ℚ :=
  match o with
  | none => d
  | some v => if v = 0 then d else v

/-- JS `String.prototype.startsWith`: character-wise prefix test. -/
def jsStartsWith (s p : String) : Bool := p.data.isPrefixOf s.data

/-- JS `Array.prototype.slice(0, e)`: a negative end counts back from the
end of the array, clamped at zero; a nonnegative end is an ordinary `take`. -/
def jsSliceTo (l : List α) (e : Int) : List α :=
  if e < 0 then l.take (l.length - (-e).toNat) else l.take e.toNat

/-! ## Data model (`types.ts`) -/

/-- RGB triple of a paint color. -/
structure Rgb where
  r : Nat
  g : Nat
  b : Nat
deriving DecidableEq, Repr

/-- Embeds `PaintColor` from `types.ts`. -/
structure PaintColor where
  name : String
  hex : String
  rgb : Rgb
  colorCode : Option String
deriving DecidableEq, Repr

/-- Embeds `Paint` from `types.ts`. -/
structure Paint where
  id : String
  productCode : String
  name : String
  manufacturer : String
  type : String
  color : PaintColor
  pricePerSqm : Option Nat
  durabilityYears : Option Nat
  description : Option String
deriving DecidableEq, Repr

/-- Embeds `ImageProcessOptions` from `types.ts`.  `maxPatterns` is a JS number, so
it is carried as an `Int` (negative values flow into `Array.slice`). -/
structure ImageProcessOptions where
  quality : Option Nat
  maxPatterns : Option Int
  maxWidth : Option Nat
  maxHeight : Option Nat
deriving DecidableEq, Repr

/-- The four declared values of `ImageProcessResult.status`. -/
inductive Status where
  | pending
  | processing
  | completed
  | failed
deriving DecidableEq, Repr

/-- Embeds `GeneratedImage` from `types.ts`; `createdAt` dates are clock readings
modelled as naturals. -/
structure GeneratedImage where
  id : String
  paint : Paint
  imageData : String
  thumbnail : Option String
  createdAt : Nat
deriving DecidableEq, Repr

/-- Embeds `ImageProcessResult` from `types.ts`. -/
structure ImageProcessResult where
  requestId : String
  status : Status
  generatedImages : List GeneratedImage
  error : Option String
  processingTimeMs : Option Nat
deriving DecidableEq, Repr

/-- Embeds `ImageProcessRequest` from `types.ts`. -/
structure ImageProcessRequest where
  id : String
  originalImage : String
  paintProductCodes : List String
  options : Option ImageProcessOptions
  timestamp : Nat
deriving DecidableEq, Repr

/-- Embeds `AIProcessingConfig` (declared in the type module of the repository; fields as
used by `ai-provider.ts` and the README: a provider tag, an optional API key,
optional model name and the three numeric generation parameters). -/
structure AIProcessingConfig where
  provider : String
  apiKey : Option String
  modelName : Option String
  steps : Option Nat
  guidanceScale : Option ℚ
  strength : Option ℚ
deriving DecidableEq, Repr

/-! ## Paint database (`database.ts`) -/

/-- Backing store of the database: `Map<string, Paint>`, keyed by product code,
modelled as an association list. -/
abbrev PaintMap := List (String × Paint)

/-- Embeds `PaintDatabase.getPaintByProductCode`: `this.paints.get(productCode)`. -/
def getPaintByProductCode (db : PaintMap) (productCode : String) : Option Paint :=
  (db.find? (fun p => p.1 = productCode)).map (·.2)

/-- Embeds `PaintDatabase.getPaintsByProductCodes`: map each code through the map
lookup, then drop the `undefined`s. -/
def getPaintsByProductCodes (db : PaintMap) (productCodes : List String) : List Paint :=
  (productCodes.map (getPaintByProductCode db)).filterMap id

/-- The five sample paints of `initializeSampleData`, keyed by product code. -/
def samplePaints : PaintMap :=
  [ ("ND-050",
     { id := "np-001", productCode := "ND-050", name := "ファインシリコンフレッシュ",
       manufacturer := "日本ペイント", type := "シリコン",
       color := { name := "クリームホワイト", hex := "#F5F5DC",
                  rgb := { r := 245, g := 245, b := 220 }, colorCode := some "ND-050" },
       pricePerSqm := some 2800, durabilityYears := some 12,
       description := some "耐候性に優れたシリコン樹脂塗料" }),
    ("ND-101",
     { id := "np-002", productCode := "ND-101", name := "パーフェクトトップ",
       manufacturer := "日本ペイント", type := "ラジカル制御",
       color := { name := "ピュアホワイト", hex := "#FFFFFF",
                  rgb := { r := 255, g := 255, b := 255 }, colorCode := some "ND-101" },
       pricePerSqm := some 3200, durabilityYears := some 15,
       description := some "ラジカル制御型高耐久塗料" }),
    ("KP-200",
     { id := "kp-001", productCode := "KP-200", name := "アレスダイナミックTOP",
       manufacturer := "関西ペイント", type := "フッ素",
       color := { name := "アイボリー", hex := "#FFFFF0",
                  rgb := { r := 255, g := 255, b := 240 }, colorCode := some "KP-200" },
       pricePerSqm := some 4500, durabilityYears := some 18,
       description := some "超高耐久フッ素樹脂塗料" }),
    ("KP-150",
     { id := "kp-002", productCode := "KP-150", name := "セラMシリコンIII",
       manufacturer := "関西ペイント", type := "シリコン",
       color := { name := "ベージュ", hex := "#F5F5DC",
                  rgb := { r := 245, g := 245, b := 220 }, colorCode := some "KP-150" },
       pricePerSqm := some 2900, durabilityYears := some 13,
       description := some "高性能シリコン樹脂塗料" }),
    ("SK-300",
     { id := "sk-001", productCode := "SK-300", name := "エスケープレミアムシリコン",
       manufacturer := "エスケー化研", type := "シリコン",
       color := { name := "ライトグレー", hex := "#D3D3D3",
                  rgb := { r := 211, g := 211, b := 211 }, colorCode := some "SK-300" },
       pricePerSqm := some 3000, durabilityYears := some 14,
       description := some "プレミアムシリコン塗料" }) ]

/-! ## AI provider (`ai-provider.ts`) -/

/-- Embeds `ReplicateProvider.DEFAULT_MODEL`. -/
def REPLICATE_DEFAULT_MODEL : String :=
  "stability-ai/stable-diffusion:db21e45d3f7023abc2a46ee38a23973f6dce16bb082a930b0c49861f96d1e5bf"

/-- Embeds `ReplicateProvider.generateNegativePrompt`. -/
def generateNegativePrompt : String :=
  "blurry, low quality, distorted, deformed, ugly, bad anatomy, watermark, text"

/-- The `input` object of the Replicate submission body. -/
structure ReplicateInput where
  image : String
  prompt : String
  negative_prompt : String
  num_outputs : Nat
  num_inference_steps : Nat
  guidance_scale : ℚ
  prompt_strength : ℚ
  scheduler : String
deriving DecidableEq, Repr

/-- The JSON body POSTed by `ReplicateProvider.generateImage`. -/
structure ReplicateBody where
  version : String
  input : ReplicateInput
deriving DecidableEq, Repr

/-- The JSON body built by `ReplicateProvider.generateImage` (lines 69–81 of
`ai-provider.ts`).  `7.5` and `0.8` are carried as the rationals `15/2` and
`4/5`. -/
def replicateRequestBody (cfg : AIProcessingConfig) (originalImage prompt : String) :
    ReplicateBody :=
  { version := jsOrStr cfg.modelName REPLICATE_DEFAULT_MODEL,
    input :=
      { image := originalImage,
        prompt := prompt,
        negative_prompt := generateNegativePrompt,
        num_outputs := 1,
        num_inference_steps := jsOrNat cfg.steps 50,
        guidance_scale := jsOrRat cfg.guidanceScale (15 / 2 : ℚ),
        prompt_strength := jsOrRat cfg.strength (4 / 5 : ℚ),
        scheduler := "DPMSolverMultistep" } }

/-- The submission phase of `ReplicateProvider.generateImage`: the API-key
guard, then the request body it POSTs (lines 56–82 of `ai-provider.ts`). -/
def replicateSubmit (cfg : AIProcessingConfig) (originalImage prompt : String) :
    Except String ReplicateBody :=
  if jsStrTruthy cfg.apiKey = false then .error "Replicate API key is required"
  else .ok (replicateRequestBody cfg originalImage prompt)

/-- One poll response of the Replicate job resource:
`{status, output?, error?}`. -/
structure Prediction where
  status : String
  output : Option (List String)
  error : Option String
deriving DecidableEq, Repr

/-- Embeds `maxAttempts` of `waitForCompletion`. -/
def maxAttempts : Nat := 60

/-- Embeds `pollInterval` of `waitForCompletion`, in milliseconds. -/
def pollInterval : Nat := 5000

/-- The loop body of `waitForCompletion`, iterated with explicit fuel:
`polls n` is the answer of the backend to the poll made at loop index `n`. -/
def waitFrom (polls : Nat → Prediction) : Nat → Nat → Except String String
  | _, 0 => .error "Image generation timeout"
  | attempt, fuel + 1 =>
    let p := polls attempt
    if p.status = "succeeded" then
      match p.output with
      | some (o :: _) => .ok o
      | _ => .error "No output image generated"
    else if p.status = "failed" then
      .error ("Image generation failed: " ++ jsOrStr p.error "Unknown error")
    else waitFrom polls (attempt + 1) fuel

/-- Embeds `ReplicateProvider.waitForCompletion`: up to `maxAttempts` polls starting
at attempt `0`. -/
def waitForCompletion (polls : Nat → Prediction) : Except String String :=
  waitFrom polls 0 maxAttempts

/-- Embeds `AIImageProvider.isReady` of the provider `createAIProvider` selects:
Replicate and Stability check truthiness of the API key, the local provider
is never ready.  (For an unsupported provider tag `createAIProvider` throws
before any `isReady` call; the value here is immaterial.) -/
def providerIsReady (cfg : AIProcessingConfig) : Bool :=
  if cfg.provider = "replicate" then jsStrTruthy cfg.apiKey
  else if cfg.provider = "stability-ai" then jsStrTruthy cfg.apiKey
  else if cfg.provider = "local" then false
  else false

/-- Whether `createAIProvider` succeeds for the provider tag of this config. -/
def providerSupported (cfg : AIProcessingConfig) : Bool :=
  cfg.provider = "replicate" || cfg.provider = "stability-ai" || cfg.provider = "local"

/-- Outcome of `provider.generateImage` for the selected provider.  The
network interaction of the Replicate variant (submit fetch + completion wait) is
abstracted as the environment-supplied outcome `net`; the Stability and
local variants fail deterministically. -/
def providerGenerateOutcome (cfg : AIProcessingConfig) (net : Except String String) :
    Except String String :=
  if cfg.provider = "replicate" then
    if jsStrTruthy cfg.apiKey = false then .error "Replicate API key is required" else net
  else if cfg.provider = "stability-ai" then
    if jsStrTruthy cfg.apiKey = false then .error "Stability AI API key is required"
    else .error "Stability AI provider not implemented yet"
  else if cfg.provider = "local" then .error "Local provider not implemented yet"
  else .error ("Unsupported AI provider: " ++ cfg.provider)

/-! ## Image processor (`image-processor.ts`, AI-integrated variant) -/

/-- Embeds `ImageProcessor.mockImageProcessing`: the deterministic placeholder. -/
def mockImageProcessing (originalImage : String) (paint : Paint) : String :=
  "mock_processed_" ++ paint.productCode ++ "_" ++ originalImage.take 20

/-- Embeds `ImageProcessor.generateThumbnail`. -/
def generateThumbnail (imageData : String) : String :=
  if jsStartsWith imageData "http" then imageData
  else "thumbnail_" ++ imageData.take 50

/-- Embeds `ImageProcessor.processWithAI`: config guard, provider construction
(which throws on an unsupported tag), readiness guard, then calling on the provider
`generateImage` with network outcome `net`. -/
def processWithAI (aiConfig : Option AIProcessingConfig) (net : Except String String) :
    Except String String :=
  match aiConfig with
  | none => .error "AI config not set"
  | some cfg =>
    if providerSupported cfg = false then
      .error ("Unsupported AI provider: " ++ cfg.provider)
    else if providerIsReady cfg = false then
      .error "AI provider is not ready"
    else providerGenerateOutcome cfg net

/-- Truthiness of `this.aiConfig && this.aiConfig.apiKey`. -/
def aiConfigured (aiConfig : Option AIProcessingConfig) : Bool :=
  match aiConfig with
  | none => false
  | some cfg => jsStrTruthy cfg.apiKey

/-- Embeds `ImageProcessor.generatePaintedImage`: run the AI path when configured,
fall back to the mock placeholder on any failure, then assemble the
`GeneratedImage` record. -/
def generatePaintedImage (aiConfig : Option AIProcessingConfig)
    (net : Except String String) (imgId : String) (now : Nat)
    (originalImage : String) (paint : Paint) : GeneratedImage :=
  let processedImage :=
    if aiConfigured aiConfig then
      match processWithAI aiConfig net with
      | .ok s => s
      | .error _ => mockImageProcessing originalImage paint
    else mockImageProcessing originalImage paint
  { id := imgId, paint := paint, imageData := processedImage,
    thumbnail := some (generateThumbnail processedImage), createdAt := now }

/-- Nondeterministic inputs of one `processImage` call: the generated request
id, the image-id generator, clock readings, and the network outcome of the
`i`-th backend call of that generation job. -/
structure ProcEnv where
  reqId : String
  imgIds : Nat → String
  now : Nat
  elapsedMs : Nat
  net : Nat → Except String String

/-- The mutable fields of the `ImageProcessor` instance. -/
structure ProcState where
  processingQueue : List (String × ImageProcessRequest)
  results : List (String × ImageProcessResult)
  aiConfig : Option AIProcessingConfig

/-- A freshly constructed `ImageProcessor`. -/
def initState : ProcState := { processingQueue := [], results := [], aiConfig := none }

/-- Embeds `Map.prototype.set`: replace the value under an existing key, otherwise
append the new entry. -/
def setEntry (m : List (String × α)) (k : String) (v : α) : List (String × α) :=
  if m.any (fun p => p.1 = k) then
    m.map (fun p => if p.1 = k then (k, v) else p)
  else m ++ [(k, v)]

/-- Embeds `Map.prototype.get`. -/
def getEntry (m : List (String × α)) (k : String) : Option α :=
  (m.find? (fun p => p.1 = k)).map (·.2)

/-- The per-paint loop of `executeImageProcessing` (lines 91–98), carrying the
job index so each job gets its own image id and network outcome. -/
def runJobs (aiConfig : Option AIProcessingConfig) (env : ProcEnv)
    (originalImage : String) : Nat → List Paint → List GeneratedImage
  | _, [] => []
  | i, paint :: rest =>
    generatePaintedImage aiConfig (env.net i) (env.imgIds i) env.now originalImage paint
      :: runJobs aiConfig env originalImage (i + 1) rest

/-- The error message thrown when no product code resolves
(「指定された品番の塗料が見つかりません」, "the paints for the specified
product codes were not found"). -/
def noMatchingPaintsMsg : String := "指定された品番の塗料が見つかりません"

/-- Embeds `ImageProcessor.executeImageProcessing`: resolve the codes, fail when
nothing resolves, truncate via `Array.slice(0, maxPatterns)` with the JS
falsy default, then run one job per remaining paint. -/
def executeImageProcessing (db : PaintMap) (aiConfig : Option AIProcessingConfig)
    (env : ProcEnv) (request : ImageProcessRequest) :
    Except String (List GeneratedImage) :=
  let paints := getPaintsByProductCodes db request.paintProductCodes
  if paints.length = 0 then .error noMatchingPaintsMsg
  else
    let maxPatterns := jsOrInt (request.options.bind (·.maxPatterns)) paints.length
    let paintsToProcess := jsSliceTo paints maxPatterns
    .ok (runJobs aiConfig env request.originalImage 0 paintsToProcess)

/-- Embeds `ImageProcessor.processImage`: build the request, enqueue it, run the
processing, and store the final result (status `completed` on success,
`failed` with the thrown message otherwise) under the request id. -/
def processImage (db : PaintMap) (env : ProcEnv) (st : ProcState)
    (originalImage : String) (paintProductCodes : List String)
    (options : Option ImageProcessOptions) : ImageProcessResult × ProcState :=
  let request : ImageProcessRequest :=
    { id := env.reqId, originalImage := originalImage,
      paintProductCodes := paintProductCodes, options := options, timestamp := env.now }
  let result :=
    match executeImageProcessing db st.aiConfig env request with
    | .ok imgs =>
      { requestId := request.id, status := .completed, generatedImages := imgs,
        error := none, processingTimeMs := some env.elapsedMs }
    | .error e =>
      { requestId := request.id, status := .failed, generatedImages := [],
        error := some e, processingTimeMs := none }
  (result,
   { st with
     processingQueue := setEntry st.processingQueue request.id request,
     results := setEntry st.results request.id result })

/-- Embeds `ImageProcessor.getResult`. -/
def getResult (st : ProcState) (requestId : String) : Option ImageProcessResult :=
  getEntry st.results requestId

/-- Return type of `ImageProcessor.getStatus`. -/
inductive QueryStatus where
  | pending
  | processing
  | completed
  | failed
  | not_found
deriving DecidableEq, Repr

/-- Embeds `ImageProcessor.getStatus`. -/
def getStatus (st : ProcState) (requestId : String) : QueryStatus :=
  match getResult st requestId with
  | some r =>
    match r.status with
    | .pending => .pending
    | .processing => .processing
    | .completed => .completed
    | .failed => .failed
  | none => .not_found

/-- Embeds `ImageProcessor.setAIConfig`. -/
def setAIConfig (st : ProcState) (cfg : AIProcessingConfig) : ProcState :=
  { st with aiConfig := some cfg }

/-- Embeds `ImageProcessor.clearCache`. -/
def clearCache (st : ProcState) : ProcState :=
  { st with processingQueue := [], results := [] }

/-- Return type of `ImageProcessor.getStatistics`. -/
structure Statistics where
  totalRequests : Nat
  completedRequests : Nat
  failedRequests : Nat
  processingRequests : Nat
deriving DecidableEq, Repr

/-- Embeds `ImageProcessor.getStatistics`: scan the stored results and count by
status. -/
def getStatistics (st : ProcState) : Statistics :=
  let results := st.results.map (·.2)
  { totalRequests := results.length,
    completedRequests := (results.filter (fun r => decide (r.status = .completed))).length,
    failedRequests := (results.filter (fun r => decide (r.status = .failed))).length,
    processingRequests := (results.filter (fun r => decide (r.status = .processing))).length }

/-- One state-mutating call of the public surface of the processor. -/
inductive Op where
  | process (db : PaintMap) (env : ProcEnv) (originalImage : String)
      (codes : List String) (options : Option ImageProcessOptions)
  | setConfig (cfg : AIProcessingConfig)
  | clear

/-- Apply one public operation to the processor state.  The read-only
operations (`getResult`, `getStatus`, `getStatistics`) do not appear: they
take the state as a plain argument and return a value. -/
def applyOp : Op → ProcState → ProcState
  | .process db env img codes opts, st => (processImage db env st img codes opts).2
  | .setConfig cfg, st => setAIConfig st cfg
  | .clear, st => clearCache st

/-- States reachable from a freshly constructed processor by public
operations. -/
inductive Reachable : ProcState → Prop where
  | init : Reachable initState
  | step (op : Op) {st : ProcState} : Reachable st → Reachable (applyOp op st)

/-! ## Specification-side definitions and concrete test data -/

/-- Number of paints actually processed, as the (amended) spec states it:
`maxPatterns` when the option is set to a positive value, the resolved count
when the option is unset or set to `0`. -/
def effectiveMaxPatterns (opts : Option ImageProcessOptions) (resolvedCount : Nat) : Nat :=
  match opts.bind (·.maxPatterns) with
  | none => resolvedCount
  | some v => if v = 0 then resolvedCount else v.toNat

/-- A poll response that is neither `succeeded` nor `failed` (the waiter keeps
polling on it). -/
def nonterminalAt (polls : Nat → Prediction) (i : Nat) : Prop :=
  (polls i).status ≠ "succeeded" ∧ (polls i).status ≠ "failed"

/-- An operation that neither clears the store nor re-uses the request id
`id`: such operations cannot touch the entry stored under `id`. -/
def opPreservesEntry (id : String) : Op → Prop
  | .process _ env _ _ _ => env.reqId ≠ id
  | .setConfig _ => True
  | .clear => False

/-- A concrete environment for evaluating `processImage` on test inputs. -/
def sampleEnv : ProcEnv :=
  { reqId := "req_1", imgIds := fun i => "img_" ++ toString i, now := 0, elapsedMs := 7,
    net := fun _ => .error "network unavailable" }

/-- The ND-050 sample paint (the value stored in the catalog under that
code), for concrete evaluations. -/
def ndPaint : Paint :=
  { id := "np-001", productCode := "ND-050", name := "ファインシリコンフレッシュ",
    manufacturer := "日本ペイント", type := "シリコン",
    color := { name := "クリームホワイト", hex := "#F5F5DC",
               rgb := { r := 245, g := 245, b := 220 }, colorCode := some "ND-050" },
    pricePerSqm := some 2800, durabilityYears := some 12,
    description := some "耐候性に優れたシリコン樹脂塗料" }

/-- A concrete poll trace: two non-terminal answers, then at index 3 a
success with two outputs. -/
def pollsW : Nat → Prediction := fun n =>
  if n = 3 then { status := "succeeded", output := some ["httpout1", "httpout2"], error := none }
  else { status := "processing", output := none, error := none }

/-! ## Helper lemmas -/

theorem runJobs_length (aiConfig : Option AIProcessingConfig) (env : ProcEnv)
    (img : String) (i : Nat) (ps : List Paint) :
    (runJobs aiConfig env img i ps).length = ps.length := by
  induction ps generalizing i with
  | nil => rfl
  | cons p rest ih => simp [runJobs, ih]

theorem runJobs_map_paint (aiConfig : Option AIProcessingConfig) (env : ProcEnv)
    (img : String) (i : Nat) (ps : List Paint) :
    (runJobs aiConfig env img i ps).map (·.paint) = ps := by
  induction ps generalizing i with
  | nil => rfl
  | cons p rest ih => simp [runJobs, generatePaintedImage, ih]

theorem getEntry_cons (q : String × α) (rest : List (String × α)) (k : String) :
    getEntry (q :: rest) k = if q.1 = k then some q.2 else getEntry rest k := by
  by_cases h : q.1 = k
  · unfold getEntry
    rw [List.find?_cons_of_pos _ (by simpa using h), if_pos h]
    rfl
  · unfold getEntry
    rw [List.find?_cons_of_neg _ (by simpa using h), if_neg h]

theorem getEntry_none_iff_any_false (m : List (String × α)) (k : String) :
    getEntry m k = none ↔ m.any (fun p => p.1 = k) = false := by
  induction m with
  | nil => simp [getEntry]
  | cons q rest ih =>
    rw [getEntry_cons, List.any_cons]
    by_cases h : q.1 = k
    · simp [h]
    · simp [h, ih]

theorem getEntry_mapSet_self (m : List (String × α)) (k : String) (v : α) :
    getEntry (m.map (fun p => if p.1 = k then (k, v) else p)) k =
      (getEntry m k).map (fun _ => v) := by
  induction m with
  | nil => rfl
  | cons q rest ih =>
    rw [List.map_cons, getEntry_cons, getEntry_cons]
    by_cases h : q.1 = k
    · rw [if_pos h]
      simp [h]
    · rw [if_neg h]
      simp only [h, if_false, ih]

theorem getEntry_mapSet_ne (m : List (String × α)) (k k' : String) (v : α)
    (hne : k' ≠ k) :
    getEntry (m.map (fun p => if p.1 = k then (k, v) else p)) k' = getEntry m k' := by
  induction m with
  | nil => rfl
  | cons q rest ih =>
    rw [List.map_cons, getEntry_cons, getEntry_cons]
    by_cases h : q.1 = k
    · rw [if_pos h]
      have h1 : ¬ (k = k') := fun hk => hne hk.symm
      have h2 : ¬ (q.1 = k') := fun hq => hne (h ▸ hq).symm
      simp only [h1, if_false, h2, ih]
    · rw [if_neg h]
      by_cases h' : q.1 = k'
      · simp [h']
      · simp only [h', if_false, ih]

theorem getEntry_append_ne (m : List (String × α)) (k k' : String) (v : α)
    (hne : k' ≠ k) : getEntry (m ++ [(k, v)]) k' = getEntry m k' := by
  induction m with
  | nil =>
    rw [List.nil_append, getEntry_cons, if_neg (fun hk => hne hk.symm)]
  | cons q rest ih =>
    rw [List.cons_append, getEntry_cons, getEntry_cons, ih]

theorem setEntry_fresh (m : List (String × α)) (k : String) (v : α)
    (h : getEntry m k = none) : setEntry m k v = m ++ [(k, v)] := by
  unfold setEntry
  rw [getEntry_none_iff_any_false] at h
  rw [if_neg]
  simp [h]

theorem getEntry_setEntry_self (m : List (String × α)) (k : String) (v : α) :
    getEntry (setEntry m k v) k = some v := by
  unfold setEntry
  split
  case isTrue hany =>
    rw [getEntry_mapSet_self]
    cases hk : getEntry m k with
    | some w => rfl
    | none =>
      rw [getEntry_none_iff_any_false] at hk
      rw [hk] at hany
      cases hany
  case isFalse hany =>
    induction m with
    | nil => simp [getEntry_cons, getEntry]
    | cons q rest ih =>
      have hq : ¬ q.1 = k := by
        intro hq
        exact hany (by simp [List.any_cons, hq])
      rw [List.cons_append, getEntry_cons, if_neg hq]
      exact ih (by
        intro hr
        exact hany (by simp [List.any_cons]; right; simpa using hr))

theorem getEntry_setEntry_ne (m : List (String × α)) (k k' : String) (v : α)
    (hne : k' ≠ k) : getEntry (setEntry m k v) k' = getEntry m k' := by
  unfold setEntry
  split
  · exact getEntry_mapSet_ne m k k' v hne
  · exact getEntry_append_ne m k k' v hne

theorem setEntry_length_fresh (m : List (String × α)) (k : String) (v : α)
    (h : getEntry m k = none) : (setEntry m k v).length = m.length + 1 := by
  rw [setEntry_fresh m k v h]
  simp

theorem setEntry_forall (m : List (String × α)) (k : String) (v : α)
    (P : String × α → Prop) (hm : ∀ e ∈ m, P e) (hv : P (k, v)) :
    ∀ e ∈ setEntry m k v, P e := by
  intro e he
  unfold setEntry at he
  split at he
  · rw [List.mem_map] at he
    obtain ⟨p, hp, hpe⟩ := he
    by_cases hpk : p.1 = k
    · rw [if_pos hpk] at hpe
      exact hpe ▸ hv
    · rw [if_neg hpk] at hpe
      exact hpe ▸ hm p hp
  · rw [List.mem_append] at he
    rcases he with he | he
    · exact hm e he
    · rw [List.mem_singleton] at he
      exact he ▸ hv

/-- Evaluated form of `processImage` when at least one code resolves. -/
theorem processImage_fst_ok (db : PaintMap) (env : ProcEnv) (st : ProcState)
    (img : String) (codes : List String) (opts : Option ImageProcessOptions)
    (h : getPaintsByProductCodes db codes ≠ []) :
    (processImage db env st img codes opts).1 =
      { requestId := env.reqId, status := .completed,
        generatedImages := runJobs st.aiConfig env img 0
          (jsSliceTo (getPaintsByProductCodes db codes)
            (jsOrInt (opts.bind (·.maxPatterns))
              ((getPaintsByProductCodes db codes).length : Int))),
        error := none, processingTimeMs := some env.elapsedMs } := by
  have hlen : ¬ (getPaintsByProductCodes db codes).length = 0 := by
    simpa [List.length_eq_zero] using h
  simp [processImage, executeImageProcessing, hlen]

/-- Evaluated form of `processImage` when no code resolves. -/
theorem processImage_fst_err (db : PaintMap) (env : ProcEnv) (st : ProcState)
    (img : String) (codes : List String) (opts : Option ImageProcessOptions)
    (h : getPaintsByProductCodes db codes = []) :
    (processImage db env st img codes opts).1 =
      { requestId := env.reqId, status := .failed, generatedImages := [],
        error := some noMatchingPaintsMsg, processingTimeMs := none } := by
  simp [processImage, executeImageProcessing, h]

theorem processImage_snd_results (db : PaintMap) (env : ProcEnv) (st : ProcState)
    (img : String) (codes : List String) (opts : Option ImageProcessOptions) :
    (processImage db env st img codes opts).2.results =
      setEntry st.results env.reqId (processImage db env st img codes opts).1 := rfl

theorem processImage_status_not_pending (db : PaintMap) (env : ProcEnv) (st : ProcState)
    (img : String) (codes : List String) (opts : Option ImageProcessOptions) :
    (processImage db env st img codes opts).1.status ≠ .pending := by
  by_cases hres : getPaintsByProductCodes db codes = []
  · rw [processImage_fst_err db env st img codes opts hres]
    simp
  · rw [processImage_fst_ok db env st img codes opts hres]
    simp

theorem providerGenerateOutcome_error (cfg : AIProcessingConfig) (e : String) :
    ∃ msg, providerGenerateOutcome cfg (.error e) = .error msg := by
  unfold providerGenerateOutcome
  split_ifs <;> exact ⟨_, rfl⟩

theorem processWithAI_error_of_net (cfg : AIProcessingConfig) (e : String) :
    ∃ msg, processWithAI (some cfg) (.error e) = .error msg := by
  simp only [processWithAI]
  split_ifs
  · exact ⟨_, rfl⟩
  · exact ⟨_, rfl⟩
  · exact providerGenerateOutcome_error cfg e

theorem processWithAI_error_of_not_ready (cfg : AIProcessingConfig)
    (net : Except String String) (h : providerIsReady cfg = false) :
    ∃ msg, processWithAI (some cfg) net = .error msg := by
  simp only [processWithAI]
  split_ifs
  · exact ⟨_, rfl⟩
  · exact ⟨_, rfl⟩

theorem getResult_foldl_preserved (id : String) (r : ImageProcessResult) :
    ∀ (ops : List Op) (st : ProcState), getResult st id = some r →
      (∀ op ∈ ops, opPreservesEntry id op) →
      getResult (ops.foldl (fun s op => applyOp op s) st) id = some r := by
  intro ops
  induction ops with
  | nil => intro st hr _; simpa using hr
  | cons op rest ih =>
    intro st hr hall
    rw [List.foldl_cons]
    apply ih
    · have hop := hall op (List.mem_cons_self op rest)
      cases op with
      | process db env img codes opts =>
        show getResult (processImage db env st img codes opts).2 id = some r
        unfold getResult
        rw [show (processImage db env st img codes opts).2.results =
              setEntry st.results env.reqId (processImage db env st img codes opts).1
            from rfl]
        rw [getEntry_setEntry_ne _ _ _ _ (Ne.symm hop)]
        exact hr
      | setConfig cfg => exact hr
      | clear => cases hop
    · intro o ho
      exact hall o (List.mem_cons_of_mem op ho)

theorem length_eq_three_status_counts (l : List ImageProcessResult)
    (h : ∀ r ∈ l, r.status ≠ .pending) :
    l.length = (l.filter (fun r => decide (r.status = .completed))).length +
      (l.filter (fun r => decide (r.status = .failed))).length +
      (l.filter (fun r => decide (r.status = .processing))).length := by
  induction l with
  | nil => rfl
  | cons r rest ih =>
    have hr := h r (List.mem_cons_self r rest)
    have ih' := ih (fun x hx => h x (List.mem_cons_of_mem r hx))
    cases hst : r.status with
    | pending => exact absurd hst hr
    | processing =>
      simp only [List.filter_cons, hst, List.length_cons]
      simp only [decide_eq_true_eq]
      rw [if_neg (by simp), if_neg (by simp), if_pos (by simp)]
      simp only [List.length_cons]
      omega
    | completed =>
      simp only [List.filter_cons, hst, List.length_cons]
      simp only [decide_eq_true_eq]
      rw [if_pos (by simp), if_neg (by simp), if_neg (by simp)]
      simp only [List.length_cons]
      omega
    | failed =>
      simp only [List.filter_cons, hst, List.length_cons]
      simp only [decide_eq_true_eq]
      rw [if_neg (by simp), if_pos (by simp), if_neg (by simp)]
      simp only [List.length_cons]
      omega

theorem reachable_no_pending (st : ProcState) (h : Reachable st) :
    ∀ e ∈ st.results, e.2.status ≠ .pending := by
  induction h with
  | init => intro e he; cases he
  | @step op st' hprev ih =>
    cases op with
    | process db env img codes opts =>
      intro e he
      exact setEntry_forall st'.results env.reqId
        (processImage db env st' img codes opts).1
        (fun p => p.2.status ≠ Status.pending) ih
        (processImage_status_not_pending db env st' img codes opts) e he
    | setConfig cfg => exact ih
    | clear => intro e he; cases he

theorem waitFrom_skip (polls : Nat → Prediction) :
    ∀ (j a fuel : Nat), (∀ i, i < j → nonterminalAt polls (a + i)) →
      waitFrom polls a (j + fuel) = waitFrom polls (a + j) fuel := by
  intro j
  induction j with
  | zero => intro a fuel _; simp
  | succ j ih =>
    intro a fuel hnon
    rw [show j + 1 + fuel = (j + fuel) + 1 by omega]
    have h0 := hnon 0 (Nat.succ_pos j)
    rw [Nat.add_zero] at h0
    show waitFrom polls a (j + fuel + 1) = _
    simp only [waitFrom]
    rw [if_neg h0.1, if_neg h0.2]
    have hrest : ∀ i, i < j → nonterminalAt polls (a + 1 + i) := by
      intro i hi
      have := hnon (i + 1) (by omega)
      rwa [show a + (i + 1) = a + 1 + i by omega] at this
    rw [ih (a + 1) fuel hrest, show a + 1 + j = a + (j + 1) by omega]

/-! ## Claims -/

/-- C5: catalog resolution (`getPaintsByProductCodes`) is the element-wise
extension of the single-code lookup — it returns, for each input code in
input order, its paint when the lookup hits and nothing when it misses, it
distributes over concatenation (so order is preserved), and it performs no
de-duplication: a matching code occurring `j` times yields `j` copies of its
paint. -/
theorem c5_resolution_order_drop_nodedup (db : PaintMap) :
    (∀ code, getPaintsByProductCodes db [code] = (getPaintByProductCode db code).toList) ∧
    (∀ codes1 codes2, getPaintsByProductCodes db (codes1 ++ codes2) =
      getPaintsByProductCodes db codes1 ++ getPaintsByProductCodes db codes2) ∧
    (∀ code p j, getPaintByProductCode db code = some p →
      getPaintsByProductCodes db (List.replicate j code) = List.replicate j p) := by
  refine ⟨?_, ?_, ?_⟩
  · intro code
    cases h : getPaintByProductCode db code <;>
      simp [getPaintsByProductCodes, h]
  · intro codes1 codes2
    simp [getPaintsByProductCodes]
  · intro code p j h
    induction j with
    | zero => rfl
    | succ j ih =>
      rw [List.replicate_succ, List.replicate_succ]
      simp [getPaintsByProductCodes, h]

/-- C5 witness: the duplicated code `ND-050` resolves to two copies of its
paint. -/
theorem c5_witness :
    getPaintByProductCode samplePaints "ND-050" = some ndPaint ∧
    getPaintsByProductCodes samplePaints (List.replicate 2 "ND-050") =
      List.replicate 2 ndPaint := by
  have h : getPaintByProductCode samplePaints "ND-050" = some ndPaint := by decide
  exact ⟨h, (c5_resolution_order_drop_nodedup samplePaints).2.2 "ND-050" ndPaint 2 h⟩

/-- C6: thumbnail derivation is a pure function of the payload: a payload
starting with the URL scheme prefix `http` is returned unchanged, any other
payload becomes the `thumbnail_` marker followed by the first 50
characters. -/
theorem c6_thumbnail_pure (imageData : String) :
    (jsStartsWith imageData "http" = true → generateThumbnail imageData = imageData) ∧
    (jsStartsWith imageData "http" = false →
      generateThumbnail imageData = "thumbnail_" ++ imageData.take 50) := by
  constructor
  · intro h
    simp [generateThumbnail, h]
  · intro h
    simp [generateThumbnail, h]

/-- C6 witness: a URL payload passes through, a non-URL payload is prefixed
and truncated. -/
theorem c6_witness :
    generateThumbnail "http://img/u.png" = "http://img/u.png" ∧
    generateThumbnail "b64payload" = "thumbnail_" ++ "b64payload".take 50 :=
  ⟨(c6_thumbnail_pure "http://img/u.png").1 (by decide),
   (c6_thumbnail_pure "b64payload").2 (by decide)⟩

/-- C7: with an API key present, the Replicate submission succeeds and its
body always carries `num_outputs = 1`; each numeric generation parameter
defaults to the documented value (`num_inference_steps = 50`,
`guidance_scale = 7.5 = 15/2`, `prompt_strength = 0.8 = 4/5`) when its config
field is absent, and each is independently overridden by a nonzero config
value. -/
theorem c7_replicate_submit_body (cfg : AIProcessingConfig) (image prompt : String)
    (hkey : jsStrTruthy cfg.apiKey = true) :
    replicateSubmit cfg image prompt = .ok (replicateRequestBody cfg image prompt) ∧
    (replicateRequestBody cfg image prompt).input.num_outputs = 1 ∧
    (cfg.steps = none →
      (replicateRequestBody cfg image prompt).input.num_inference_steps = 50) ∧
    (cfg.guidanceScale = none →
      (replicateRequestBody cfg image prompt).input.guidance_scale = (15 / 2 : ℚ)) ∧
    (cfg.strength = none →
      (replicateRequestBody cfg image prompt).input.prompt_strength = (4 / 5 : ℚ)) ∧
    (∀ v : Nat, v ≠ 0 → cfg.steps = some v →
      (replicateRequestBody cfg image prompt).input.num_inference_steps = v) ∧
    (∀ q : ℚ, q ≠ 0 → cfg.guidanceScale = some q →
      (replicateRequestBody cfg image prompt).input.guidance_scale = q) ∧
    (∀ q : ℚ, q ≠ 0 → cfg.strength = some q →
      (replicateRequestBody cfg image prompt).input.prompt_strength = q) := by
  refine ⟨?_, rfl, ?_, ?_, ?_, ?_, ?_, ?_⟩
  · unfold replicateSubmit
    rw [if_neg (by simp [hkey])]
  · intro h
    simp [replicateRequestBody, jsOrNat, h]
  · intro h
    simp [replicateRequestBody, jsOrRat, h]
  · intro h
    simp [replicateRequestBody, jsOrRat, h]
  · intro v hv h
    simp [replicateRequestBody, jsOrNat, h, hv]
  · intro q hq h
    simp [replicateRequestBody, jsOrRat, h, hq]
  · intro q hq h
    simp [replicateRequestBody, jsOrRat, h, hq]

/-- C7 witness: a config with an API key, no `steps`/`strength`, and
`guidanceScale = 3` yields an accepted body with `num_outputs = 1`, default
steps `50`, default strength `4/5`, and overridden guidance scale `3`. -/
theorem c7_witness :
    (replicateRequestBody
      { provider := "replicate", apiKey := some "r8_key", modelName := none,
        steps := none, guidanceScale := some 3, strength := none } "img" "p").input.num_outputs = 1 ∧
    (replicateRequestBody
      { provider := "replicate", apiKey := some "r8_key", modelName := none,
        steps := none, guidanceScale := some 3, strength := none } "img" "p").input.num_inference_steps = 50 ∧
    (replicateRequestBody
      { provider := "replicate", apiKey := some "r8_key", modelName := none,
        steps := none, guidanceScale := some 3, strength := none } "img" "p").input.guidance_scale = 3 ∧
    (replicateRequestBody
      { provider := "replicate", apiKey := some "r8_key", modelName := none,
        steps := none, guidanceScale := some 3, strength := none } "img" "p").input.prompt_strength = (4 / 5 : ℚ) := by
  have h := c7_replicate_submit_body
    { provider := "replicate", apiKey := some "r8_key", modelName := none,
      steps := none, guidanceScale := some 3, strength := none } "img" "p" (by decide)
  exact ⟨h.2.1, h.2.2.1 rfl, h.2.2.2.2.2.2.1 3 (by norm_num) rfl, h.2.2.2.2.1 rfl⟩

/-- C3: graceful degradation.  If no AI config/API key is set, or the
configured provider `isReady()` method is false, or the provider method `generateImage`
call fails (any network-level error), the job still yields an artifact whose
`imageData` is the deterministic placeholder built from the product
code and the first 20 characters of the source image reference; and —
independently of any per-job outcome — a request with at least one resolved
paint always ends `completed`, never `failed`. -/
theorem c3_degradation_placeholder (aiConfig : Option AIProcessingConfig)
    (net : Except String String) (imgId : String) (now : Nat)
    (img : String) (paint : Paint)
    (h : aiConfig = none ∨ ∃ cfg, aiConfig = some cfg ∧
      (jsStrTruthy cfg.apiKey = false ∨ providerIsReady cfg = false ∨
        ∃ e, net = .error e)) :
    (generatePaintedImage aiConfig net imgId now img paint).imageData =
      "mock_processed_" ++ paint.productCode ++ "_" ++ img.take 20 ∧
    ∀ (db : PaintMap) (env : ProcEnv) (st : ProcState) (codes : List String)
      (opts : Option ImageProcessOptions),
      getPaintsByProductCodes db codes ≠ [] →
      (processImage db env st img codes opts).1.status = .completed := by
  constructor
  · by_cases hac : aiConfigured aiConfig = true
    · have herr : ∃ msg, processWithAI aiConfig net = .error msg := by
        rcases h with hnone | ⟨cfg, hcfg, hc⟩
        · rw [hnone] at hac
          cases hac
        · subst hcfg
          rcases hc with hkey | hready | ⟨e, hnet⟩
          · rw [show aiConfigured (some cfg) = jsStrTruthy cfg.apiKey from rfl,
                hkey] at hac
            cases hac
          · exact processWithAI_error_of_not_ready cfg net hready
          · subst hnet
            exact processWithAI_error_of_net cfg e
      obtain ⟨msg, hm⟩ := herr
      simp [generatePaintedImage, hac, hm, mockImageProcessing]
    · rw [Bool.not_eq_true] at hac
      simp [generatePaintedImage, hac, mockImageProcessing]
  · intro db env st codes opts hres
    rw [processImage_fst_ok db env st img codes opts hres]

/-- C3 witness: with no AI config at all, the payload of the generated artifact is
the placeholder for the code of the paint and the image prefix. -/
theorem c3_witness :
    (generatePaintedImage none (.error "net down") "img_0" 0
        "http://x/house.jpg" ndPaint).imageData =
      "mock_processed_" ++ "ND-050" ++ "_" ++ "http://x/house.jpg".take 20 :=
  (c3_degradation_placeholder none (.error "net down") "img_0" 0
    "http://x/house.jpg" ndPaint (Or.inl rfl)).1

/-- C2 counterexample: on a request whose codes resolve to nothing, the
stored error is the fixed Japanese message
「指定された品番の塗料が見つかりません」, not the English string
"no matching paints" that the claim asserts. -/
theorem c2_counterexample :
    (processImage samplePaints sampleEnv initState "http://x/house.jpg"
        ["NOPE"] none).1.error = some noMatchingPaintsMsg ∧
    noMatchingPaintsMsg ≠ "no matching paints" := by
  constructor
  · rfl
  · decide

/-- C2 (amended): a request fails (status `failed`) exactly when its codes
resolve to zero paints; in that case it has no artifacts and its error is the
fixed non-empty message 「指定された品番の塗料が見つかりません」 ("the paints
for the specified product codes were not found").  This is the only
whole-request failure path. -/
theorem c2_failure_iff_zero_resolution (db : PaintMap) (env : ProcEnv)
    (st : ProcState) (img : String) (codes : List String)
    (opts : Option ImageProcessOptions) :
    ((processImage db env st img codes opts).1.status = .failed ↔
      getPaintsByProductCodes db codes = []) ∧
    (getPaintsByProductCodes db codes = [] →
      (processImage db env st img codes opts).1.generatedImages = [] ∧
      (processImage db env st img codes opts).1.error = some noMatchingPaintsMsg) ∧
    noMatchingPaintsMsg ≠ "" := by
  by_cases hres : getPaintsByProductCodes db codes = []
  · rw [processImage_fst_err db env st img codes opts hres]
    refine ⟨⟨fun _ => hres, fun _ => rfl⟩, fun _ => ⟨rfl, rfl⟩, by decide⟩
  · rw [processImage_fst_ok db env st img codes opts hres]
    refine ⟨⟨fun hc => ?_, fun hc => absurd hc hres⟩,
      fun hc => absurd hc hres, by decide⟩
    cases hc

/-- C2 witness: the unknown code `NOPE` yields a failed result with no
artifacts. -/
theorem c2_witness :
    (processImage samplePaints sampleEnv initState "http://x/house.jpg"
        ["NOPE"] none).1.status = .failed ∧
    (processImage samplePaints sampleEnv initState "http://x/house.jpg"
        ["NOPE"] none).1.generatedImages = [] := by
  have h := c2_failure_iff_zero_resolution samplePaints sampleEnv initState
    "http://x/house.jpg" ["NOPE"] none
  exact ⟨h.1.mpr (by decide), (h.2.1 (by decide)).1⟩

/-- C1 counterexample: with two resolvable codes and
`options.maxPatterns = -1`, the claim predicts `min(2, 2) = 2` artifacts
(`maxPatterns ≤ 0` "counts as resolvedCount"), but `paints.slice(0, -1)`
drops the last resolved paint and only one artifact is generated. -/
theorem c1_counterexample :
    (getPaintsByProductCodes samplePaints ["ND-050", "KP-200"]).length = 2 ∧
    (processImage samplePaints sampleEnv initState "http://x/house.jpg"
        ["ND-050", "KP-200"]
        (some { quality := none, maxPatterns := some (-1), maxWidth := none,
                maxHeight := none })).1.generatedImages.length = 1 := by
  constructor
  · rfl
  · rfl

/-- C1 (amended): for every call whose product codes resolve to at least one
paint and whose `options.maxPatterns`, if set, is nonnegative, the result has
status `completed`, its `generatedImages` length is
`min(resolvedCount, effectiveMaxPatterns)` — where the effective cap counts
as `resolvedCount` whenever `maxPatterns` is unset or `= 0` (not for negative
values, which follow JS `slice` semantics) — and the paint of the i-th
generated image is the i-th resolved (and truncated) paint. -/
theorem c1_completed_and_truncation (db : PaintMap) (env : ProcEnv)
    (st : ProcState) (img : String) (codes : List String)
    (opts : Option ImageProcessOptions)
    (hres : getPaintsByProductCodes db codes ≠ [])
    (hmp : ∀ v, opts.bind (·.maxPatterns) = some v → 0 ≤ v) :
    (processImage db env st img codes opts).1.status = .completed ∧
    (processImage db env st img codes opts).1.generatedImages.length =
      min (getPaintsByProductCodes db codes).length
        (effectiveMaxPatterns opts (getPaintsByProductCodes db codes).length) ∧
    (processImage db env st img codes opts).1.generatedImages.map (·.paint) =
      (getPaintsByProductCodes db codes).take
        (effectiveMaxPatterns opts (getPaintsByProductCodes db codes).length) := by
  rw [processImage_fst_ok db env st img codes opts hres]
  refine ⟨rfl, ?_, ?_⟩
  · simp only [runJobs_length]
    cases hb : opts.bind (·.maxPatterns) with
    | none =>
      simp [jsOrInt, hb, jsSliceTo, effectiveMaxPatterns, List.length_take]
    | some v =>
      have hv0 : 0 ≤ v := hmp v hb
      by_cases hv : v = 0
      · subst hv
        simp [jsOrInt, hb, jsSliceTo, effectiveMaxPatterns, List.length_take]
      · have hneg : ¬ (v < 0) := by omega
        simp only [jsOrInt, hb, if_neg hv, jsSliceTo, if_neg hneg,
          effectiveMaxPatterns, Option.bind_eq_bind]
        simp [hv, List.length_take, Nat.min_comm]
  · simp only [runJobs_map_paint]
    cases hb : opts.bind (·.maxPatterns) with
    | none =>
      simp [jsOrInt, hb, jsSliceTo, effectiveMaxPatterns]
    | some v =>
      have hv0 : 0 ≤ v := hmp v hb
      by_cases hv : v = 0
      · subst hv
        simp [jsOrInt, hb, jsSliceTo, effectiveMaxPatterns]
      · have hneg : ¬ (v < 0) := by omega
        simp [jsOrInt, hb, if_neg hv, jsSliceTo, if_neg hneg,
          effectiveMaxPatterns]

/-- C1 witness: the example given by the spec itself — image with codes
`[ND-050, KP-200, NOPE]` and `maxPatterns = 2` completes with exactly the two
resolved paints, in order. -/
theorem c1_witness :
    (processImage samplePaints sampleEnv initState "http://x/house.jpg"
        ["ND-050", "KP-200", "NOPE"]
        (some { quality := none, maxPatterns := some 2, maxWidth := none,
                maxHeight := none })).1.status = .completed ∧
    (processImage samplePaints sampleEnv initState "http://x/house.jpg"
        ["ND-050", "KP-200", "NOPE"]
        (some { quality := none, maxPatterns := some 2, maxWidth := none,
                maxHeight := none })).1.generatedImages.length = 2 := by
  have h := c1_completed_and_truncation samplePaints sampleEnv initState
    "http://x/house.jpg" ["ND-050", "KP-200", "NOPE"]
    (some { quality := none, maxPatterns := some 2, maxWidth := none,
            maxHeight := none })
    (by decide) (by intro v hv; simp at hv; omega)
  exact ⟨h.1, h.2.1.trans (by decide)⟩

/-- C8 counterexample: `clearCache` is a public operation of the processor
that removes stored results — after one stored request, clearing makes
`getResult` return nothing.  The store therefore does not "only grow" under
every public operation. -/
theorem c8_counterexample :
    (getResult ((processImage samplePaints sampleEnv initState "http://x/house.jpg"
        ["ND-050"] none).2) "req_1").isSome = true ∧
    getResult (clearCache ((processImage samplePaints sampleEnv initState
        "http://x/house.jpg" ["ND-050"] none).2)) "req_1" = none := by
  constructor
  · rfl
  · rfl

/-- C8 (amended): every `processImage` call whose generated request id is not
already stored adds exactly one entry — its own result under its own id — and
leaves every other entry unchanged; `setAIConfig` never touches the store;
the store only shrinks through `clearCache`, which removes all stored
results. -/
theorem c8_store_growth (db : PaintMap) (env : ProcEnv) (st : ProcState)
    (img : String) (codes : List String) (opts : Option ImageProcessOptions)
    (hfresh : getResult st env.reqId = none) :
    ((processImage db env st img codes opts).2).results.length =
      st.results.length + 1 ∧
    getResult ((processImage db env st img codes opts).2) env.reqId =
      some (processImage db env st img codes opts).1 ∧
    (∀ id, id ≠ env.reqId →
      getResult ((processImage db env st img codes opts).2) id = getResult st id) ∧
    (∀ cfg, (setAIConfig st cfg).results = st.results) ∧
    (clearCache st).results = [] := by
  refine ⟨?_, ?_, ?_, fun _ => rfl, rfl⟩
  · rw [show ((processImage db env st img codes opts).2).results =
        setEntry st.results env.reqId (processImage db env st img codes opts).1
      from processImage_snd_results db env st img codes opts]
    exact setEntry_length_fresh st.results env.reqId _ hfresh
  · unfold getResult
    rw [processImage_snd_results db env st img codes opts]
    exact getEntry_setEntry_self st.results env.reqId _
  · intro id hid
    unfold getResult
    rw [processImage_snd_results db env st img codes opts]
    exact getEntry_setEntry_ne st.results env.reqId id _ hid

/-- C8 witness: one submission against the empty store stores exactly one
result. -/
theorem c8_witness :
    ((processImage samplePaints sampleEnv initState "http://x/house.jpg"
        ["ND-050"] none).2).results.length = 1 := by
  have h := c8_store_growth samplePaints sampleEnv initState "http://x/house.jpg"
    ["ND-050"] none rfl
  exact h.1

/-- C9: once the stored result of a request is `completed`, it is stable — after
any sequence of further public operations that neither clears the store nor
re-uses that request id, `getResult` still returns the very same result
value, field for field.  (`getResult` itself is a pure read: it takes the
state and returns a value without modifying anything, so consecutive calls
are identical by construction; the stability proven here holds for any
stored entry, in particular terminal ones.) -/
theorem c9_terminal_result_stable (st : ProcState) (id : String)
    (r : ImageProcessResult) (hr : getResult st id = some r)
    (_hterm : r.status = .completed) :
    ∀ ops : List Op, (∀ op ∈ ops, opPreservesEntry id op) →
      getResult (ops.foldl (fun s op => applyOp op s) st) id = some r :=
  fun ops hall => getResult_foldl_preserved id r ops st hr hall

/-- C9 witness: after a completed request, a subsequent `setAIConfig` and an
unrelated submission leave its stored result unchanged. -/
theorem c9_witness :
    getResult
      (([Op.setConfig
          { provider := "replicate", apiKey := some "r8_key", modelName := none,
            steps := none, guidanceScale := none, strength := none }].foldl
        (fun s op => applyOp op s)
        ((processImage samplePaints sampleEnv initState "http://x/house.jpg"
            ["ND-050"] none).2))) "req_1" =
      some (processImage samplePaints sampleEnv initState "http://x/house.jpg"
        ["ND-050"] none).1 := by
  have hr : getResult (processImage samplePaints sampleEnv initState
      "http://x/house.jpg" ["ND-050"] none).2 "req_1" =
      some (processImage samplePaints sampleEnv initState "http://x/house.jpg"
        ["ND-050"] none).1 := rfl
  refine c9_terminal_result_stable _ "req_1" _ hr rfl _ ?_
  intro op hop
  rw [List.mem_singleton] at hop
  subst hop
  trivial

/-- C10: in every reachable processor state the statistics satisfy
`totalRequests = completedRequests + failedRequests + processingRequests`,
because no operation ever stores a result with the declared-but-unused
status `pending`: every stored result is counted by exactly one of the three
non-total counters. -/
theorem c10_statistics_invariant (st : ProcState) (h : Reachable st) :
    (getStatistics st).totalRequests =
      (getStatistics st).completedRequests + (getStatistics st).failedRequests +
        (getStatistics st).processingRequests ∧
    ∀ e ∈ st.results, e.2.status ≠ Status.pending := by
  have hnp := reachable_no_pending st h
  constructor
  · have hcount := length_eq_three_status_counts (st.results.map (·.2)) (by
      intro r hr
      rw [List.mem_map] at hr
      obtain ⟨e, he, rfl⟩ := hr
      exact hnp e he)
    simpa [getStatistics] using hcount
  · exact hnp

/-- C10 witness: the invariant at the reachable state after one submission:
1 total = 1 completed + 0 failed + 0 processing. -/
theorem c10_witness :
    (getStatistics (applyOp (Op.process samplePaints sampleEnv
        "http://x/house.jpg" ["ND-050"] none) initState)).totalRequests =
      (getStatistics (applyOp (Op.process samplePaints sampleEnv
        "http://x/house.jpg" ["ND-050"] none) initState)).completedRequests +
      (getStatistics (applyOp (Op.process samplePaints sampleEnv
        "http://x/house.jpg" ["ND-050"] none) initState)).failedRequests +
      (getStatistics (applyOp (Op.process samplePaints sampleEnv
        "http://x/house.jpg" ["ND-050"] none) initState)).processingRequests :=
  (c10_statistics_invariant _
    (Reachable.step (Op.process samplePaints sampleEnv "http://x/house.jpg"
      ["ND-050"] none) Reachable.init)).1

/-- C4: the completion waiter polls at a fixed 5000 ms cadence for at most 60
attempts; if the first terminal poll answer (before attempt 60) is
`succeeded` with a non-empty output it returns the first output element, if
it is `succeeded` with missing or empty output it fails with the no-output
error, if it is `failed` it fails with a message carrying the error
text (`Unknown error` when absent or empty), and if no poll in the budget is
terminal it fails with the timeout error. -/
theorem c4_completion_waiter (polls : Nat → Prediction) :
    maxAttempts = 60 ∧ pollInterval = 5000 ∧
    ((∀ i, i < maxAttempts → nonterminalAt polls i) →
      waitForCompletion polls = .error "Image generation timeout") ∧
    (∀ k, k < maxAttempts → (∀ i, i < k → nonterminalAt polls i) →
      (((polls k).status = "succeeded" →
        (∀ o rest, (polls k).output = some (o :: rest) →
          waitForCompletion polls = .ok o) ∧
        (((polls k).output = none ∨ (polls k).output = some []) →
          waitForCompletion polls = .error "No output image generated")) ∧
      ((polls k).status = "failed" →
        waitForCompletion polls = .error
          ("Image generation failed: " ++ jsOrStr (polls k).error "Unknown error")))) := by
  refine ⟨rfl, rfl, ?_, ?_⟩
  · intro h
    have hs := waitFrom_skip polls 60 0 0 (by
      intro i hi
      simpa using h i hi)
    show waitFrom polls 0 maxAttempts = _
    rw [show maxAttempts = 60 + 0 from rfl, hs]
    rfl
  · intro k hk hpre
    have hk' : k < 60 := hk
    have hs := waitFrom_skip polls k 0 (60 - k) (by
      intro i hi
      simpa using hpre i hi)
    have hk60 : k + (60 - k) = 60 := by omega
    rw [hk60, Nat.zero_add] at hs
    have hwc : waitForCompletion polls = waitFrom polls k (60 - k) := by
      show waitFrom polls 0 maxAttempts = _
      rw [show maxAttempts = 60 from rfl, hs]
    have hfuel : 60 - k = (59 - k) + 1 := by omega
    constructor
    · intro hsucc
      constructor
      · intro o rest hout
        rw [hwc, hfuel]
        simp only [waitFrom]
        rw [if_pos hsucc, hout]
      · intro hout
        rw [hwc, hfuel]
        simp only [waitFrom]
        rw [if_pos hsucc]
        rcases hout with hout | hout <;> rw [hout]
    · intro hfail
      have hnsucc : ¬ ((polls k).status = "succeeded") := by
        rw [hfail]
        decide
      rw [hwc, hfuel]
      simp only [waitFrom]
      rw [if_neg hnsucc, if_pos hfail]

/-- C4 witness: on a trace whose first terminal answer is a success with two
outputs at attempt 3, the waiter returns the first output. -/
theorem c4_witness : waitForCompletion pollsW = .ok "httpout1" := by
  have h := (c4_completion_waiter pollsW).2.2.2 3 (by decide)
    (by
      intro i hi
      constructor
      · show (pollsW i).status ≠ "succeeded"
        interval_cases i <;> decide
      · show (pollsW i).status ≠ "failed"
        interval_cases i <;> decide)
  exact (h.1 rfl).1 "httpout1" ["httpout2"] rfl

end PaintViz
